import Mathlib

/-!
Shallow embedding of the energy-consumption case study.

The embedding models:
  * `energy/models.py` — `Account` (integer primary key `id`, integer
    balance `energy`) and `EnergyConsumption` (rows with `account_id`,
    `amount` and the UNIQUE `idempotency_key`; `created_at` is a pure
    audit timestamp and is not modelled).
  * `energy/application/use_cases.py` — `consume_energy`, run inside
    `transaction.atomic()`: an exception raised inside the block rolls the
    store back, so every failure path returns the original database.
    Alongside the resulting database and result/exception we record the
    sequence of store operations the function performs (lock-read, insert,
    update, refresh-read, commit/rollback) in program order.
  * `energy/views.py` — `ConsumeEnergyView.post`: Python truthiness check
    on the three fields, `int()` coercion, the `amount <= 0` guard, and the
    mapping of domain exceptions to HTTP responses.
-/

/-- A row of the `Account` table: integer primary key and integer balance. -/
structure Account where
  id : Int
  energy : Int
  deriving DecidableEq, Repr

/-- A row of the `EnergyConsumption` table (`created_at` not modelled). -/
structure EnergyConsumption where
  account_id : Int
  amount : Int
  idempotency_key : String
  deriving DecidableEq, Repr

/-- The durable store: the two tables used by the use case. -/
structure DB where
  accounts : List Account
  events : List EnergyConsumption
  deriving DecidableEq, Repr

/-- `Account.objects.get(id=account_id)`: the row with the given primary key,
`none` when `Account.DoesNotExist` would be raised. -/
def findAccount (db : DB) (account_id : Int) : Option Account :=
  db.accounts.find? (fun a => a.id == account_id)

/-- Whether a `EnergyConsumption` row with this `idempotency_key` exists:
the UNIQUE constraint rejects an insert exactly when this is `true`. -/
def hasEvent (db : DB) (key : String) : Bool :=
  db.events.any (fun e => e.idempotency_key == key)

/-- Number of `EnergyConsumption` rows carrying the given `idempotency_key`. -/
def countEventsFor (db : DB) (key : String) : Nat :=
  db.events.countP (fun e => e.idempotency_key == key)

/-- Effect of `Account.objects.filter(id=account_id).update(energy=F("energy") - amount)`
on one row: rows with a matching id get the store-evaluated decrement. -/
def applyDecrement (a : Account) (account_id amount : Int) : Account :=
  if a.id == account_id then { a with energy := a.energy - amount } else a

/-- The domain exceptions of `energy/domain/exceptions.py`, plus
`Account.DoesNotExist` raised by `Account.objects.get`. -/
inductive ConsumeError where
  | accountNotFound : ConsumeError
  | insufficientEnergy (account_id requested available : Int) : ConsumeError
  | idempotencyReplay (idempotency_key : String) : ConsumeError
  deriving DecidableEq, Repr

/-- The success payload returned by `consume_energy`. -/
structure ConsumeResult where
  account_id : Int
  remaining_energy : Int
  amount_consumed : Int
  deriving DecidableEq, Repr

/-- Outcome of `consume_energy`: either the success dict or the raised
domain exception. -/
inductive ConsumeOutcomeResult where
  | success (r : ConsumeResult) : ConsumeOutcomeResult
  | failure (e : ConsumeError) : ConsumeOutcomeResult
  deriving DecidableEq, Repr

/-- Store operations performed by `consume_energy`, in program order. -/
inductive StoreOp where
  | opLockRead (account_id : Int) : StoreOp
  | opInsert (idempotency_key : String) : StoreOp
  | opUpdate (account_id : Int) : StoreOp
  | opRefreshRead (account_id : Int) : StoreOp
  | opCommit : StoreOp
  | opRollback : StoreOp
  deriving DecidableEq, BEq, Repr

/-- Full outcome of one `consume_energy` call: the database after the
transaction block (unchanged whenever an exception aborts it), the result,
and the trace of store operations in the order the source performs them. -/
structure ConsumeOutcome where
  db : DB
  result : ConsumeOutcomeResult
  trace : List StoreOp
  deriving DecidableEq, Repr

/-- `consume_energy(account_id, amount, idempotency_key)` from
`energy/application/use_cases.py`.  Inside `transaction.atomic()`:
lock-read the account (raise `Account.DoesNotExist` if absent), raise
`InsufficientEnergy` when `account.energy < amount`, insert the
`EnergyConsumption` row (an `IntegrityError` from the UNIQUE
`idempotency_key` becomes `IdempotencyReplay`), apply the F()-expression
decrement, then `refresh_from_db()` — still inside the block — and return
the dict after commit.  A raised exception rolls the whole block back. -/
def consume_energy (db : DB) (account_id amount : Int) (idempotency_key : String) :
    ConsumeOutcome :=
  match findAccount db account_id with
  | none =>
      ⟨db, .failure .accountNotFound, [.opLockRead account_id, .opRollback]⟩
  | some account =>
      if account.energy < amount then
        ⟨db, .failure (.insufficientEnergy account_id amount account.energy),
          [.opLockRead account_id, .opRollback]⟩
      else if hasEvent db idempotency_key then
        ⟨db, .failure (.idempotencyReplay idempotency_key),
          [.opLockRead account_id, .opInsert idempotency_key, .opRollback]⟩
      else
        let db1 : DB :=
          { db with events := db.events ++ [⟨account_id, amount, idempotency_key⟩] }
        let db2 : DB :=
          { db1 with accounts := db1.accounts.map (fun a => applyDecrement a account_id amount) }
        match findAccount db2 account_id with
        | some refreshed =>
            ⟨db2, .success ⟨refreshed.id, refreshed.energy, amount⟩,
              [.opLockRead account_id, .opInsert idempotency_key, .opUpdate account_id,
               .opRefreshRead account_id, .opCommit]⟩
        | none =>
            ⟨db, .failure .accountNotFound,
              [.opLockRead account_id, .opInsert idempotency_key, .opUpdate account_id,
               .opRefreshRead account_id, .opRollback]⟩

/-! ## The transport adapter (`energy/views.py`) -/

/-- A JSON scalar as delivered by `request.data.get`: null, boolean,
integral number, fractional number, or string.  A fractional JSON number
arrives as a Python float; `jfloat` carries the rational value it denotes
(for the magnitudes handled here, `int()` truncation of the float agrees
with truncation of that rational). -/
inductive JsonVal where
  | jnull : JsonVal
  | jbool (b : Bool) : JsonVal
  | jint (n : Int) : JsonVal
  | jfloat (q : ℚ) : JsonVal
  | jstr (s : String) : JsonVal
  deriving DecidableEq, Repr

/-- Python truthiness of a JSON scalar, as tested by `all([...])`. -/
def pyTruthy : JsonVal → Bool
  | .jnull => false
  | .jbool b => b
  | .jint n => n != 0
  | .jfloat q => decide (q ≠ 0)
  | .jstr s => s != ""

/-- The whitespace `int(str)` strips: precisely the ASCII characters
Python treats as space (codepoints 9-13, 28-31 and 32). -/
def pyWhitespace (c : Char) : Bool :=
  (9 ≤ c.toNat && c.toNat ≤ 13) || (28 ≤ c.toNat && c.toNat ≤ 31) || c.toNat == 32

/-- Both-ends whitespace stripping, as `int(str)` performs. -/
def pyStrip (s : String) : List Char :=
  ((s.toList.dropWhile pyWhitespace).reverse.dropWhile pyWhitespace).reverse

/-- No two adjacent underscores, part of Python's digit-grouping rule. -/
def noDoubleUnderscore : List Char → Bool
  | [] => true
  | [_] => true
  | a :: b :: rest => !(a == '_' && b == '_') && noDoubleUnderscore (b :: rest)

/-- Python's base-10 digit grammar `digit (underscore? digit)*`: nonempty,
first and last characters digits, only digits and underscores, and no
underscore run — so every underscore sits between two digits. -/
def validDigitGroup (cs : List Char) : Bool :=
  match cs with
  | [] => false
  | c :: _ =>
      c.isDigit
        && (match cs.getLast? with
            | some d => d.isDigit
            | none => false)
        && cs.all (fun c => c.isDigit || c == '_')
        && noDoubleUnderscore cs

/-- Numeric value of a digit group, underscores dropped. -/
def digitGroupVal (cs : List Char) : Nat :=
  (cs.filter (fun c => c != '_')).foldl (fun acc c => acc * 10 + (c.toNat - 48)) 0

/-- Python `int(s)` on an ASCII string: strip whitespace, one optional
sign, then a base-10 digit group with single underscores between digits;
`none` models a raised `ValueError`.  (Python additionally accepts
non-ASCII Unicode decimal digits and spaces; the embedding's request
strings are taken from the ASCII fragment, and the theorems about the
adapter's coercion failures carry that restriction as a hypothesis.) -/
def pyIntOfString (s : String) : Option Int :=
  match pyStrip s with
  | '+' :: rest => if validDigitGroup rest then some (digitGroupVal rest : Int) else none
  | '-' :: rest => if validDigitGroup rest then some (-(digitGroupVal rest : Int)) else none
  | rest => if validDigitGroup rest then some (digitGroupVal rest : Int) else none

/-- Truncation toward zero, the effect of Python `int()` on a float. -/
def ratTrunc (q : ℚ) : Int :=
  if 0 ≤ q.num then (q.num.natAbs / q.den : ℕ)
  else -((q.num.natAbs / q.den : ℕ) : Int)

/-- Python `int(x)` on a JSON scalar. `int()` of a float truncates toward
zero and raises nothing. -/
def pyInt : JsonVal → Option Int
  | .jint n => some n
  | .jbool b => some (if b then 1 else 0)
  | .jfloat q => some (ratTrunc q)
  | .jstr s => pyIntOfString s
  | .jnull => none

/-- Python `str(x)` on a JSON scalar, as the CharField would store it.
Float rendering (Python's shortest-roundtrip repr) is not modelled — the
stand-in prints the rational — and no theorem depends on the rendering of
a non-string key. -/
def pyStr : JsonVal → String
  | .jstr s => s
  | .jint n => toString n
  | .jbool b => if b then "True" else "False"
  | .jfloat q => toString q.num ++ "/" ++ toString q.den
  | .jnull => "None"

/-- Whether a request field is within the embedding's ASCII fragment:
string payloads restricted to ASCII characters, everything else exact. -/
def asciiJson : Option JsonVal → Bool
  | some (.jstr s) => s.toList.all (fun c => decide (c.toNat < 128))
  | _ => true

/-- Truthiness of `request.data.get(field)`: a missing field is `None`. -/
def truthyOpt : Option JsonVal → Bool
  | none => false
  | some v => pyTruthy v

/-- `int(request.data.get(field))`: `int(None)` raises. -/
def intOpt : Option JsonVal → Option Int
  | none => none
  | some v => pyInt v

/-- The idempotency key string handed to the core. -/
def keyOpt : Option JsonVal → String
  | none => "None"
  | some v => pyStr v

/-- The body of a POST to `/api/energy/consume/`. -/
structure RequestData where
  account_id : Option JsonVal
  amount : Option JsonVal
  idempotency_key : Option JsonVal
  deriving DecidableEq, Repr

/-- The HTTP responses `ConsumeEnergyView.post` can produce. -/
inductive HttpResponse where
  | ok (body : ConsumeResult) : HttpResponse
  | replayOk : HttpResponse
  | badRequest (error : String) : HttpResponse
  | notFound : HttpResponse
  | unprocessable (error : String) : HttpResponse
  deriving DecidableEq, Repr

/-- HTTP status code of each response. -/
def statusCode : HttpResponse → Nat
  | .ok _ => 200
  | .replayOk => 200
  | .badRequest _ => 400
  | .notFound => 404
  | .unprocessable _ => 422

/-- `ConsumeEnergyView.post` from `energy/views.py`: truthiness check on
the three fields, `int()` coercion of `account_id`/`amount`, the
`amount <= 0` guard, then delegation to `consume_energy` and the mapping
of its exceptions to HTTP responses.  The returned triple is the database
after the call, the response, and the store-operation trace of the core
call (empty when validation rejects the request before the core runs). -/
def post (db : DB) (req : RequestData) : DB × HttpResponse × List StoreOp :=
  if truthyOpt req.account_id && truthyOpt req.amount && truthyOpt req.idempotency_key then
    match intOpt req.account_id, intOpt req.amount with
    | some account_id, some amount =>
        if amount ≤ 0 then
          (db, .badRequest "amount must be a positive integer.", [])
        else
          let o := consume_energy db account_id amount (keyOpt req.idempotency_key)
          match o.result with
          | .success r => (o.db, .ok r, o.trace)
          | .failure .accountNotFound => (o.db, .notFound, o.trace)
          | .failure (.insufficientEnergy a r v) =>
              (o.db,
               .unprocessable ("Account " ++ toString a ++ ": requested " ++ toString r
                 ++ ", available " ++ toString v),
               o.trace)
          | .failure (.idempotencyReplay _) => (o.db, .replayOk, o.trace)
    | _, _ => (db, .badRequest "account_id and amount must be integers.", [])
  else
    (db, .badRequest "account_id, amount, and idempotency_key are required.", [])

/-- All committed balances are non-negative. -/
def allEnergiesNonneg (db : DB) : Bool :=
  db.accounts.all (fun a => decide (0 ≤ a.energy))

/-- The database of the worked examples: one account, id 1, energy 100. -/
def dbExample : DB := ⟨[⟨1, 100⟩], []⟩

/-! ## Helper lemmas -/

theorem applyDecrement_id (a : Account) (account_id amount : Int) :
    (applyDecrement a account_id amount).id = a.id := by
  unfold applyDecrement; split <;> rfl

theorem find?_map_applyDecrement (l : List Account) (account_id amount : Int) :
    (l.map (fun a => applyDecrement a account_id amount)).find? (fun a => a.id == account_id)
      = (l.find? (fun a => a.id == account_id)).map
          (fun a => applyDecrement a account_id amount) := by
  induction l with
  | nil => rfl
  | cons a l ih =>
      cases hb : (a.id == account_id) with
      | true => simp [List.find?_cons, applyDecrement_id, hb]
      | false => simp [List.find?_cons, applyDecrement_id, hb, ih]

theorem findAccount_id_eq (db : DB) (account_id : Int) (acct : Account)
    (h : findAccount db account_id = some acct) : acct.id = account_id := by
  have := List.find?_some h
  simpa using this

/-- After the F()-expression update, the looked-up row carries the
decremented balance; the events table plays no part in the lookup. -/
theorem findAccount_after_update (db : DB) (account_id amount : Int)
    (events : List EnergyConsumption) (acct : Account)
    (hfind : findAccount db account_id = some acct) :
    findAccount
        ⟨db.accounts.map (fun a => applyDecrement a account_id amount), events⟩ account_id
      = some ⟨account_id, acct.energy - amount⟩ := by
  have hid : acct.id = account_id := findAccount_id_eq db account_id acct hfind
  unfold findAccount
  simp only
  rw [find?_map_applyDecrement]
  unfold findAccount at hfind
  rw [hfind]
  simp [applyDecrement, hid]

theorem countEventsFor_eq_zero (db : DB) (key : String)
    (h : hasEvent db key = false) : countEventsFor db key = 0 := by
  unfold hasEvent at h
  unfold countEventsFor
  rw [List.countP_eq_zero]
  intro e he
  intro hk
  have : db.events.any (fun e => e.idempotency_key == key) = true :=
    List.any_eq_true.mpr ⟨e, he, hk⟩
  rw [h] at this
  exact Bool.false_ne_true this

/-- Evaluation of `consume_energy` when the account row is absent. -/
theorem consume_energy_not_found (db : DB) (account_id amount : Int) (key : String)
    (hnone : findAccount db account_id = none) :
    consume_energy db account_id amount key =
      ⟨db, .failure .accountNotFound, [.opLockRead account_id, .opRollback]⟩ := by
  unfold consume_energy
  simp only [hnone]

/-- Evaluation of `consume_energy` when the locked balance is short. -/
theorem consume_energy_insufficient (db : DB) (account_id amount : Int) (key : String)
    (acct : Account)
    (hfind : findAccount db account_id = some acct)
    (hlt : acct.energy < amount) :
    consume_energy db account_id amount key =
      ⟨db, .failure (.insufficientEnergy account_id amount acct.energy),
       [.opLockRead account_id, .opRollback]⟩ := by
  unfold consume_energy
  simp only [hfind]
  rw [if_pos hlt]

/-- Evaluation of `consume_energy` when the idempotency key is already
recorded: the insert is rejected by the uniqueness constraint. -/
theorem consume_energy_replay (db : DB) (account_id amount : Int) (key : String)
    (acct : Account)
    (hfind : findAccount db account_id = some acct)
    (hge : ¬ acct.energy < amount)
    (hev : hasEvent db key = true) :
    consume_energy db account_id amount key =
      ⟨db, .failure (.idempotencyReplay key),
       [.opLockRead account_id, .opInsert key, .opRollback]⟩ := by
  unfold consume_energy
  simp only [hfind]
  rw [if_neg hge, if_pos hev]

/-- Evaluation of `consume_energy` on the success path: account present,
balance sufficient, idempotency key fresh. -/
theorem consume_energy_success (db : DB) (account_id amount : Int) (key : String)
    (acct : Account)
    (hfind : findAccount db account_id = some acct)
    (hge : ¬ acct.energy < amount)
    (hkey : hasEvent db key = false) :
    consume_energy db account_id amount key =
      ⟨⟨db.accounts.map (fun a => applyDecrement a account_id amount),
        db.events ++ [⟨account_id, amount, key⟩]⟩,
       .success ⟨account_id, acct.energy - amount, amount⟩,
       [.opLockRead account_id, .opInsert key, .opUpdate account_id,
        .opRefreshRead account_id, .opCommit]⟩ := by
  have hfind2 :=
    findAccount_after_update db account_id amount
      (db.events ++ [⟨account_id, amount, key⟩]) acct hfind
  have hkey' : ¬ hasEvent db key = true := by simp [hkey]
  unfold consume_energy
  simp only [hfind]
  rw [if_neg hge, if_neg hkey']
  simp only [hfind2]

example : (consume_energy dbExample 1 30 "k1").result = .success ⟨1, 70, 30⟩ := by decide
example : (consume_energy dbExample 1 200 "k1").result
    = .failure (.insufficientEnergy 1 200 100) := by decide
example : (consume_energy dbExample 2 10 "k1").result = .failure .accountNotFound := by decide
example :
    (consume_energy (consume_energy dbExample 1 30 "k1").db 1 30 "k1").result
      = .failure (.idempotencyReplay "k1") := by decide

example : pyIntOfString "42" = some 42 := by decide
example : pyIntOfString " -42 " = some (-42) := by decide
example : pyIntOfString "+7" = some 7 := by decide
example : pyIntOfString "1_000" = some 1000 := by decide
example : pyIntOfString "1__0" = none := by decide
example : pyIntOfString "_1" = none := by decide
example : pyIntOfString "1_" = none := by decide
example : pyIntOfString "abc" = none := by decide
example : pyIntOfString "+-5" = none := by decide
example : pyIntOfString "" = none := by decide
example : ratTrunc (mkRat 37 10) = 3 := by decide
example : ratTrunc (mkRat (-37) 10) = -3 := by decide
example : ratTrunc (mkRat 4 1) = 4 := by decide

/-! ## Claim theorems -/

/-- C1: for an existing account with balance `energy_before`, a positive
`amount ≤ energy_before` and a fresh idempotency key, `consume` succeeds,
returns `remainingEnergy = energy_before - amount` and
`amountConsumed = amount`, persists the decremented balance, and leaves
exactly one ConsumptionEvent for that key. -/
theorem consume_success_spec (db : DB) (account_id amount : Int) (key : String)
    (acct : Account)
    (hfind : findAccount db account_id = some acct)
    (hpos : 0 < amount)
    (hle : amount ≤ acct.energy)
    (hkey : hasEvent db key = false) :
    (consume_energy db account_id amount key).result
        = .success ⟨account_id, acct.energy - amount, amount⟩ ∧
    findAccount (consume_energy db account_id amount key).db account_id
        = some ⟨account_id, acct.energy - amount⟩ ∧
    countEventsFor (consume_energy db account_id amount key).db key = 1 := by
  have hge : ¬ acct.energy < amount := not_lt.mpr hle
  have h := consume_energy_success db account_id amount key acct hfind hge hkey
  rw [h]
  refine ⟨rfl, ?_, ?_⟩
  · exact findAccount_after_update db account_id amount
      (db.events ++ [⟨account_id, amount, key⟩]) acct hfind
  · have h0 : countEventsFor db key = 0 := countEventsFor_eq_zero db key hkey
    unfold countEventsFor at h0 ⊢
    simp only
    rw [List.countP_append, h0]
    simp [List.countP_cons]

theorem consume_success_spec_witness :
    (consume_energy dbExample 1 30 "k1").result = .success ⟨1, 70, 30⟩ ∧
    findAccount (consume_energy dbExample 1 30 "k1").db 1 = some ⟨1, 70⟩ ∧
    countEventsFor (consume_energy dbExample 1 30 "k1").db "k1" = 1 :=
  consume_success_spec dbExample 1 30 "k1" ⟨1, 100⟩
    (by decide) (by decide) (by decide) (by decide)

/-- C3: when the requested amount strictly exceeds the locked balance,
`consume` fails with `InsufficientEnergy` carrying the account id, the
requested amount and the available balance; the transaction aborts, so the
database — balance and events alike — is exactly the one before the call. -/
theorem consume_insufficient_spec (db : DB) (account_id amount : Int) (key : String)
    (acct : Account)
    (hfind : findAccount db account_id = some acct)
    (hlt : acct.energy < amount) :
    consume_energy db account_id amount key =
      ⟨db, .failure (.insufficientEnergy account_id amount acct.energy),
       [.opLockRead account_id, .opRollback]⟩ :=
  consume_energy_insufficient db account_id amount key acct hfind hlt

theorem consume_insufficient_spec_witness :
    consume_energy dbExample 1 200 "k2" =
      ⟨dbExample, .failure (.insufficientEnergy 1 200 100),
       [.opLockRead 1, .opRollback]⟩ :=
  consume_insufficient_spec dbExample 1 200 "k2" ⟨1, 100⟩ (by decide) (by decide)

/-- C7: when no account carries the given id, `consume` fails with the
distinct `AccountNotFound` kind (its own constructor, not a string), and
the transport adapter maps that outcome to an HTTP 404 response without
touching the database. -/
theorem consume_account_not_found_spec (db : DB) (account_id amount : Int) (key : String)
    (hnone : findAccount db account_id = none)
    (haid : account_id ≠ 0) (hpos : 0 < amount) (hkey : key ≠ "") :
    (consume_energy db account_id amount key).result = .failure .accountNotFound ∧
    post db ⟨some (.jint account_id), some (.jint amount), some (.jstr key)⟩
        = (db, .notFound, [.opLockRead account_id, .opRollback]) ∧
    statusCode .notFound = 404 := by
  have hcore : consume_energy db account_id amount key
      = ⟨db, .failure .accountNotFound, [.opLockRead account_id, .opRollback]⟩ :=
    consume_energy_not_found db account_id amount key hnone
  refine ⟨by rw [hcore], ?_, rfl⟩
  have ht : (truthyOpt (some (.jint account_id)) && truthyOpt (some (.jint amount))
      && truthyOpt (some (.jstr key))) = true := by
    simp [truthyOpt, pyTruthy, haid, hkey, hpos.ne']
  unfold post
  rw [if_pos ht]
  simp only [intOpt, pyInt]
  rw [if_neg (not_le.mpr hpos)]
  simp only [keyOpt, pyStr, hcore]

/-- C2 counterexample: start from one account with energy 100; a first
consume of 30 under key "k1" succeeds, leaving 70.  A second call with the
same key but amount 200 fails with `InsufficientEnergy`, not
`IdempotencyReplay`: in `consume_energy` the balance check precedes the
event insert, so the duplicate key is never presented to the store. -/
theorem consume_replay_differing_amount_cex :
    (consume_energy (consume_energy dbExample 1 30 "k1").db 1 200 "k1").result
        = .failure (.insufficientEnergy 1 200 70) ∧
    (consume_energy (consume_energy dbExample 1 30 "k1").db 1 200 "k1").result
        ≠ .failure (.idempotencyReplay "k1") := by
  exact ⟨by decide, by decide⟩

/-- C2 amended: after a successful consume recorded an idempotency key, a
second call with that key — same or different amount and account — fails
with `IdempotencyReplay` carrying the key and leaves the database exactly
as the first call left it, provided the second call's account exists and
its amount does not exceed that account's current balance (otherwise the
earlier `AccountNotFound`/`InsufficientEnergy` checks fire first). -/
theorem consume_idempotent_replay (db : DB) (aid1 amt1 aid2 amt2 : Int) (key : String)
    (acct1 acct2 : Account)
    (hfind1 : findAccount db aid1 = some acct1)
    (hle1 : amt1 ≤ acct1.energy)
    (hkey : hasEvent db key = false)
    (hfind2 : findAccount (consume_energy db aid1 amt1 key).db aid2 = some acct2)
    (hle2 : amt2 ≤ acct2.energy) :
    (consume_energy (consume_energy db aid1 amt1 key).db aid2 amt2 key).result
        = .failure (.idempotencyReplay key) ∧
    (consume_energy (consume_energy db aid1 amt1 key).db aid2 amt2 key).db
        = (consume_energy db aid1 amt1 key).db := by
  have h1 := consume_energy_success db aid1 amt1 key acct1 hfind1 (not_lt.mpr hle1) hkey
  rw [h1] at hfind2 ⊢
  have hev : hasEvent
      (⟨db.accounts.map (fun a => applyDecrement a aid1 amt1),
        db.events ++ [⟨aid1, amt1, key⟩]⟩ : DB) key = true := by
    simp [hasEvent]
  unfold consume_energy
  simp only [hfind2]
  rw [if_neg (not_lt.mpr hle2), if_pos hev]
  exact ⟨rfl, rfl⟩

theorem consume_idempotent_replay_witness :
    (consume_energy (consume_energy dbExample 1 30 "k1").db 1 50 "k1").result
        = .failure (.idempotencyReplay "k1") ∧
    (consume_energy (consume_energy dbExample 1 30 "k1").db 1 50 "k1").db
        = (consume_energy dbExample 1 30 "k1").db :=
  consume_idempotent_replay dbExample 1 30 1 50 "k1" ⟨1, 100⟩ ⟨1, 70⟩
    (by decide) (by decide) (by decide) (by decide) (by decide)

/-- C4: `consume` fails with `IdempotencyReplay` for the given key exactly
when the event insert is reached (account present, balance sufficient) and
the store's uniqueness constraint rejects it because a row with that
`idempotency_key` already exists; every other failure surfaces as a
different error kind, never as replay. -/
theorem replay_iff_uniqueness_violation (db : DB) (account_id amount : Int) (key : String) :
    (consume_energy db account_id amount key).result
        = .failure (.idempotencyReplay key) ↔
      (∃ acct, findAccount db account_id = some acct ∧ ¬ acct.energy < amount)
        ∧ hasEvent db key = true := by
  unfold consume_energy
  cases hfind : findAccount db account_id with
  | none => simp
  | some acct =>
      by_cases hlt : acct.energy < amount
      · simp [hlt]
      · by_cases hev : hasEvent db key = true
        · simp [hlt, hev]
          exact not_lt.mp hlt
        · simp only [hlt, hev, if_false, if_true, eq_self_iff_true]
          split
          · simp_all
          · split <;> simp

/-- C5 counterexample: on the success path the refresh read that produces
the response balance happens inside the transaction — its trace position
is strictly before the commit, contradicting "read back only after
commit". -/
theorem refresh_before_commit_cex :
    (consume_energy dbExample 1 30 "k1").trace
        = [.opLockRead 1, .opInsert "k1", .opUpdate 1, .opRefreshRead 1, .opCommit] ∧
    List.indexOf (StoreOp.opRefreshRead 1) (consume_energy dbExample 1 30 "k1").trace
      < List.indexOf StoreOp.opCommit (consume_energy dbExample 1 30 "k1").trace := by
  exact ⟨by decide, by decide⟩

/-- C5 amended: the response balance is read back via `refresh_from_db`
inside the unit of work — after the F()-expression update and before the
commit; because the read happens in the same transaction it observes the
decremented balance, so the returned `remainingEnergy` equals
`energy_before - amount`, the value made durable at commit. -/
theorem refresh_read_in_transaction (db : DB) (account_id amount : Int) (key : String)
    (acct : Account)
    (hfind : findAccount db account_id = some acct)
    (hge : ¬ acct.energy < amount)
    (hkey : hasEvent db key = false) :
    (consume_energy db account_id amount key).trace
        = [.opLockRead account_id, .opInsert key, .opUpdate account_id,
           .opRefreshRead account_id, .opCommit] ∧
    (consume_energy db account_id amount key).result
        = .success ⟨account_id, acct.energy - amount, amount⟩ := by
  rw [consume_energy_success db account_id amount key acct hfind hge hkey]
  exact ⟨rfl, rfl⟩

theorem refresh_read_in_transaction_witness :
    (consume_energy dbExample 1 30 "k1").trace
        = [.opLockRead 1, .opInsert "k1", .opUpdate 1, .opRefreshRead 1, .opCommit] ∧
    (consume_energy dbExample 1 30 "k1").result = .success ⟨1, 70, 30⟩ :=
  refresh_read_in_transaction dbExample 1 30 "k1" ⟨1, 100⟩
    (by decide) (by decide) (by decide)

/-- C6 counterexample: a negative amount reaching `consume` is not treated
as a contract violation: with energy 100, `consume(1, -5, "k1")` passes
the balance check, creates an event and sets the balance to 105 — an
ordinary deduction of a negative quantity. -/
theorem negative_amount_processed_cex :
    (consume_energy dbExample 1 (-5) "k1").result = .success ⟨1, 105, -5⟩ ∧
    countEventsFor (consume_energy dbExample 1 (-5) "k1").db "k1" = 1 := by
  exact ⟨by decide, by decide⟩

/-- C6 amended: the ledger gives zero or negative amounts no special
treatment: such an amount reaching `consume` for an existing account with
non-negative balance and a fresh key is processed as an ordinary
deduction — a ConsumptionEvent is created and the balance becomes
`energy - amount` (an increase when the amount is negative); positivity is
enforced only by the transport adapter before the core is invoked. -/
theorem nonpositive_amount_ordinary_deduction (db : DB) (account_id amount : Int)
    (key : String) (acct : Account)
    (hfind : findAccount db account_id = some acct)
    (hneg : amount ≤ 0)
    (henergy : 0 ≤ acct.energy)
    (hkey : hasEvent db key = false) :
    (consume_energy db account_id amount key).result
        = .success ⟨account_id, acct.energy - amount, amount⟩ ∧
    countEventsFor (consume_energy db account_id amount key).db key = 1 := by
  have hge : ¬ acct.energy < amount := not_lt.mpr (le_trans hneg henergy)
  rw [consume_energy_success db account_id amount key acct hfind hge hkey]
  refine ⟨rfl, ?_⟩
  have h0 := countEventsFor_eq_zero db key hkey
  unfold countEventsFor at h0 ⊢
  simp only
  rw [List.countP_append, h0]
  simp [List.countP_cons]

theorem nonpositive_amount_ordinary_deduction_witness :
    (consume_energy dbExample 1 (-20) "k3").result = .success ⟨1, 120, -20⟩ ∧
    countEventsFor (consume_energy dbExample 1 (-20) "k3").db "k3" = 1 :=
  nonpositive_amount_ordinary_deduction dbExample 1 (-20) "k3" ⟨1, 100⟩
    (by decide) (by decide) (by decide) (by decide)

theorem consume_account_not_found_spec_witness :
    (consume_energy dbExample 999999 10 "k").result = .failure .accountNotFound ∧
    post dbExample ⟨some (.jint 999999), some (.jint 10), some (.jstr "k")⟩
        = (dbExample, .notFound, [.opLockRead 999999, .opRollback]) ∧
    statusCode .notFound = 404 :=
  consume_account_not_found_spec dbExample 999999 10 "k"
    (by decide) (by decide) (by decide) (by decide)

/-- C8: committed balances stay non-negative: starting from a committed
state where every account's energy is non-negative (with unique primary
keys, as the store enforces), a `consume` call with a positive amount —
whatever its outcome — leaves every committed energy non-negative. -/
theorem energy_nonneg_invariant (db : DB) (account_id amount : Int) (key : String)
    (hinv : allEnergiesNonneg db = true)
    (hnodup : (db.accounts.map (fun a => a.id)).Nodup)
    (hpos : 0 < amount) :
    allEnergiesNonneg (consume_energy db account_id amount key).db = true := by
  cases hfind : findAccount db account_id with
  | none =>
      rw [consume_energy_not_found db account_id amount key hfind]
      exact hinv
  | some acct =>
      by_cases hlt : acct.energy < amount
      · rw [consume_energy_insufficient db account_id amount key acct hfind hlt]
        exact hinv
      · by_cases hev : hasEvent db key = true
        · rw [consume_energy_replay db account_id amount key acct hfind hlt hev]
          exact hinv
        · have hkey : hasEvent db key = false := by
            cases h : hasEvent db key
            · rfl
            · exact absurd h hev
          rw [consume_energy_success db account_id amount key acct hfind hlt hkey]
          have hmem : acct ∈ db.accounts := List.mem_of_find?_eq_some hfind
          have hid : acct.id = account_id := findAccount_id_eq db account_id acct hfind
          unfold allEnergiesNonneg at hinv ⊢
          rw [List.all_eq_true] at hinv ⊢
          intro x hx
          obtain ⟨a, ha, rfl⟩ := List.mem_map.mp hx
          simp only [decide_eq_true_eq]
          unfold applyDecrement
          split
          · rename_i hcond
            have haid : a.id = account_id := by simpa using hcond
            have haeq : a = acct := by
              apply List.inj_on_of_nodup_map hnodup ha hmem
              simp only [haid, hid]
            subst haeq
            have hge := not_lt.mp hlt
            simp only
            omega
          · exact decide_eq_true_eq.mp (hinv a ha)

theorem energy_nonneg_invariant_witness :
    allEnergiesNonneg (consume_energy dbExample 1 30 "k1").db = true :=
  energy_nonneg_invariant dbExample 1 30 "k1" (by decide) (by decide) (by decide)

/-- C9 counterexample: a request whose amount is the fractional JSON
number 3.7 — not a well-formed integer — is not rejected: 3.7 is truthy,
`int(3.7)` truncates to 3 without raising, 3 > 0 passes the guard, and
the core runs against the store: the call returns HTTP 200 with
`remainingEnergy` 97 and the database is mutated (trace non-empty). -/
theorem float_amount_reaches_core_cex :
    (post dbExample ⟨some (.jint 1), some (.jfloat (mkRat 37 10)), some (.jstr "kf")⟩).1
        ≠ dbExample ∧
    (post dbExample ⟨some (.jint 1), some (.jfloat (mkRat 37 10)), some (.jstr "kf")⟩).2.1
        = .ok ⟨1, 97, 3⟩ ∧
    (post dbExample ⟨some (.jint 1), some (.jfloat (mkRat 37 10)), some (.jstr "kf")⟩).2.2
        ≠ [] := by
  exact ⟨by decide, by decide, by decide⟩

/-- C9 amended: for requests whose string payloads are ASCII (the
fragment on which the embedding's `int()` is exact), the transport
adapter answers HTTP 400, leaves the store untouched, and never invokes
the core (empty store trace) whenever one of the three fields is missing,
`account_id` or `amount` fails Python's `int()` coercion, or the coerced
`amount` is non-positive.  A fractional JSON number is not rejected:
`int()` truncates it without raising, so it is not a coercion failure and
a float amount with positive truncation reaches the core. -/
theorem reject_invalid_requests (db : DB) (req : RequestData)
    (hasciiA : asciiJson req.account_id = true)
    (hasciiB : asciiJson req.amount = true)
    (h : req.account_id = none ∨ req.amount = none ∨ req.idempotency_key = none
       ∨ intOpt req.account_id = none ∨ intOpt req.amount = none
       ∨ (∃ n, intOpt req.amount = some n ∧ n ≤ 0)) :
    (post db req).1 = db ∧ statusCode (post db req).2.1 = 400
      ∧ (post db req).2.2 = [] := by
  unfold post
  by_cases hc : (truthyOpt req.account_id && truthyOpt req.amount
      && truthyOpt req.idempotency_key) = true
  case neg =>
    rw [if_neg hc]
    exact ⟨rfl, rfl, rfl⟩
  case pos =>
    rw [if_pos hc]
    have ⟨hta, htb, htc⟩ : truthyOpt req.account_id = true
        ∧ truthyOpt req.amount = true ∧ truthyOpt req.idempotency_key = true := by
      simpa [Bool.and_eq_true, and_assoc] using hc
    cases hA : intOpt req.account_id with
    | none => exact ⟨rfl, rfl, rfl⟩
    | some a =>
        cases hB : intOpt req.amount with
        | none => exact ⟨rfl, rfl, rfl⟩
        | some b =>
            rcases h with h | h | h | h | h | ⟨n, hn, hle⟩
            · rw [h] at hta; simp [truthyOpt] at hta
            · rw [h] at htb; simp [truthyOpt] at htb
            · rw [h] at htc; simp [truthyOpt] at htc
            · rw [h] at hA; cases hA
            · rw [h] at hB; cases hB
            · rw [hB] at hn
              have hb : b ≤ 0 := by
                injection hn with h'
                rw [h']
                exact hle
              simp [hb, statusCode]

theorem reject_invalid_requests_witness :
    (post dbExample ⟨some (.jint 1), some (.jint (-5)), some (.jstr "k")⟩).1 = dbExample ∧
    statusCode (post dbExample ⟨some (.jint 1), some (.jint (-5)), some (.jstr "k")⟩).2.1 = 400 ∧
    (post dbExample ⟨some (.jint 1), some (.jint (-5)), some (.jstr "k")⟩).2.2 = [] :=
  reject_invalid_requests dbExample ⟨some (.jint 1), some (.jint (-5)), some (.jstr "k")⟩
    rfl rfl (Or.inr (Or.inr (Or.inr (Or.inr (Or.inr ⟨-5, rfl, by decide⟩)))))

/-- C10: the required-fields check tests Python truthiness, not presence:
an `account_id` equal to the integer 0, an `amount` equal to the integer
0, or an empty-string `idempotency_key` is answered with the 400
"required" response and the core is never invoked. -/
theorem falsy_fields_rejected (db : DB) (req : RequestData)
    (h : req.account_id = some (.jint 0) ∨ req.amount = some (.jint 0)
       ∨ req.idempotency_key = some (.jstr "")) :
    post db req
        = (db, .badRequest "account_id, amount, and idempotency_key are required.", [])
      ∧ statusCode (post db req).2.1 = 400 := by
  have hc : (truthyOpt req.account_id && truthyOpt req.amount
      && truthyOpt req.idempotency_key) = false := by
    rcases h with h | h | h <;> simp [h, truthyOpt, pyTruthy]
  have h1 : post db req
      = (db, .badRequest "account_id, amount, and idempotency_key are required.", []) := by
    unfold post
    rw [hc]
    simp
  exact ⟨h1, by rw [h1]; rfl⟩

theorem falsy_fields_rejected_witness :
    post dbExample ⟨some (.jint 0), some (.jint 30), some (.jstr "k")⟩
        = (dbExample, .badRequest "account_id, amount, and idempotency_key are required.", [])
      ∧ statusCode (post dbExample ⟨some (.jint 0), some (.jint 30), some (.jstr "k")⟩).2.1
          = 400 :=
  falsy_fields_rejected dbExample ⟨some (.jint 0), some (.jint 30), some (.jstr "k")⟩
    (Or.inl rfl)
